import Mathlib

/-!
Shallow embedding of `src/trade/api/fameex_api.js` (FameEX exchange API client):
the response classifier `handleResponse`, the request signer `getSignature`
(HMAC-SHA256, implemented here over `Nat` with explicit reduction mod 2^32),
the private-request builder `protectedRequest`, and the module configuration
`setConfig`, together with theorems checking the specification's claims.
-/

namespace Fameex

mutual

/-- JavaScript values as used by the adapter: `undefined`, `null`, booleans,
numbers (the file only ever works with integral numbers: HTTP status codes,
application error codes, balances, timestamps), strings, and plain objects
(ordered association lists of fields).  Objects are a mutual inductive so that
all recursions below are structural. -/
inductive JSValue where
  | vUndefined : JSValue
  | vNull : JSValue
  | vBool : Bool → JSValue
  | vNum : Int → JSValue
  | vStr : String → JSValue
  | vObj : JSFields → JSValue

/-- Fields of a JavaScript object, in insertion order, keys unique. -/
inductive JSFields where
  | nil : JSFields
  | cons : String → JSValue → JSFields → JSFields

end

deriving instance DecidableEq for JSValue

deriving instance DecidableEq for JSFields

/-- JavaScript strict equality `===` as used in the source.  Every `===` in the
file compares against a primitive literal (`statusCodes.ok`, `statusCodes.zero`,
the string `'post'`); for two objects `===` is reference equality, which a pure
embedding cannot observe, and which the source never exercises, so object
comparison is mapped to `false` (two separately constructed literals). -/
def jsStrictEq : JSValue → JSValue → Bool
  | .vUndefined, .vUndefined => true
  | .vNull, .vNull => true
  | .vBool a, .vBool b => a == b
  | .vNum a, .vNum b => a == b
  | .vStr a, .vStr b => a == b
  | _, _ => false

/-- Build an object from a list of fields. -/
def objOf : List (String × JSValue) → JSFields
  | [] => .nil
  | (k, v) :: rest => .cons k v (objOf rest)

/-- A JavaScript object value from a list of fields. -/
def jsObj (l : List (String × JSValue)) : JSValue := .vObj (objOf l)

/-- Property read on an object: the stored value, or `undefined` when absent. -/
def lookupField : JSFields → String → JSValue
  | .nil, _ => .vUndefined
  | .cons k v rest, key => if k == key then v else lookupField rest key

/-- Property assignment `obj[key] = val`: an existing key keeps its position and
gets the new value; a new key is appended (JavaScript insertion order). -/
def setField : JSFields → String → JSValue → JSFields
  | .nil, key, val => .cons key val .nil
  | .cons k v rest, key, val =>
    if k == key then .cons k val rest else .cons k v (setField rest key val)

/-- JavaScript `ToString` on the values of this embedding, as used by template
literals and `String(...)`: a plain object prints as `[object Object]`. -/
def jsToString : JSValue → String
  | .vUndefined => "undefined"
  | .vNull => "null"
  | .vBool b => if b then "true" else "false"
  | .vNum n => toString n
  | .vStr s => s
  | .vObj _ => "[object Object]"

/-- JavaScript nullish test (`null` or `undefined`). -/
def isNullish : JSValue → Bool
  | .vUndefined => true
  | .vNull => true
  | _ => false

/-- The nullish-coalescing operator `a ?? b`. -/
def coalesce (a b : JSValue) : JSValue := if isNullish a then b else a

/-- JavaScript truthiness (`NaN` does not occur in this embedding). -/
def truthy : JSValue → Bool
  | .vUndefined => false
  | .vNull => false
  | .vBool b => b
  | .vNum n => n != 0
  | .vStr s => s != ""
  | .vObj _ => true

/-- Optional chaining `v?.k`: `undefined` on a nullish base, the property on an
object, and `undefined` on other primitives (no primitive in the file has the
properties the classifier reads). -/
def optChain (v : JSValue) (k : String) : JSValue :=
  match v with
  | .vObj fs => lookupField fs k
  | _ => .vUndefined

/-- Plain property read `v.k`: throws a `TypeError` (modelled as `none`) on a
nullish base, otherwise behaves like `optChain`. -/
def jsGet (v : JSValue) (k : String) : Option JSValue :=
  match v with
  | .vUndefined => none
  | .vNull => none
  | .vObj fs => some (lookupField fs k)
  | _ => some .vUndefined

/-- Escape one character for a JSON string literal (the adapter only ever
serializes keys and values without control characters). -/
def jsonEscapeChar (c : Char) : String :=
  if c == '"' then "\\\"" else if c == '\\' then "\\\\" else String.singleton c

/-- A JSON string literal. -/
def jsonQuote (s : String) : String :=
  "\"" ++ String.join (s.toList.map jsonEscapeChar) ++ "\""

mutual

/-- `JSON.stringify`: `undefined` serializes to no output at all (modelled as
`none`); inside an object, fields whose value serializes to nothing are
skipped, and field order is insertion order. -/
def jsonStringify : JSValue → Option String
  | .vUndefined => none
  | .vNull => some "null"
  | .vBool b => some (if b then "true" else "false")
  | .vNum n => some (toString n)
  | .vStr s => some (jsonQuote s)
  | .vObj fs => some ("\x7b" ++ String.intercalate "," (jsonMembers fs) ++ "\x7d")

/-- The serialized `"key":value` members of an object, skipping `undefined`. -/
def jsonMembers : JSFields → List String
  | .nil => []
  | .cons k v rest =>
    match jsonStringify v with
    | none => jsonMembers rest
    | some s => (jsonQuote k ++ ":" ++ s) :: jsonMembers rest

end

/-- `JSON.stringify(v)` as it appears inside a template literal: when the
serializer yields no output (`v` is `undefined`) the template prints the word
`undefined`. -/
def jsonStringifyT (v : JSValue) : String := (jsonStringify v).getD "undefined"

/-- Drop leading and trailing characters of `s` that occur in `chars`. -/
def trimString (s chars : String) : String :=
  String.mk ((((s.toList.dropWhile (fun c => chars.toList.contains c)).reverse).dropWhile
    (fun c => chars.toList.contains c)).reverse)

/-- Modelled from the spec: `trimAny` is imported from `helpers/utils`, a file
of this repository that is not among the sources; the spec describes its use as
"trimming stray spaces/periods from the message" (`trimAny(error.msg, ' .')`),
so it removes the given characters from both ends of a string.  A non-string
message (possible, since `body.msg` is caller data) passes through unchanged,
matching the description which only speaks about trimming a message string. -/
def trimAny (v : JSValue) (chars : String) : JSValue :=
  match v with
  | .vStr s => .vStr (trimString s chars)
  | v => v

/-- The fixed table mapping known application error codes to descriptions
(`httpErrorCodeDescriptions` in the source); keys of a JavaScript object
literal with numeric keys are the decimal strings. -/
def httpErrorCodeDescriptions : List (String × String) := [
  ("112002", "API single key traffic exceeds limit"),
  ("112005", "API request frequency exceeded"),
  ("112007", "API-Key creation failed"),
  ("112008", "API-Key remark name already exists"),
  ("112009", "The number of API-Key creation exceeds the limit (a single user can create up to 5 APIs)"),
  ("112010", "API-Key is invalid (the time limit for a single Key is 60 natural days)"),
  ("112011", "API request IP access is restricted (the bound IP is inconsistent with the request IP)"),
  ("112015", "Signature error"),
  ("112020", "Wrong signature"),
  ("112021", "Wrong signature version"),
  ("112022", "Signature timestamp error"),
  ("112047", "The spot API interface is temporarily inaccessible"),
  ("112048", "The futures API interface is temporarily inaccessible"),
  ("230030", "Please operate after KYC certification")]

/-- `httpErrorCodeDescriptions[data?.code]`: computed member access converts
the key to a string (`ToPropertyKey`); absent keys give `undefined`. -/
def descLookup (codeVal : JSValue) : JSValue :=
  match httpErrorCodeDescriptions.find? (fun p => p.1 == jsToString codeVal) with
  | some p => .vStr p.2
  | none => .vUndefined

/-- `statusCodes` from the source: `ok` is the number 200, `zero` the string
`'0'`. -/
structure StatusCodesT where
  ok : JSValue
  zero : JSValue

def statusCodes : StatusCodesT := ⟨.vNum 200, .vStr "0"⟩

/-- `httpCode = responseOrError?.status ?? responseOrError?.response?.status`. -/
def httpCodeOf (responseOrError : JSValue) : JSValue :=
  coalesce (optChain responseOrError "status")
    (optChain (optChain responseOrError "response") "status")

/-- `httpMessage = responseOrError?.statusText ?? responseOrError?.response?.statusText`. -/
def httpMessageOf (responseOrError : JSValue) : JSValue :=
  coalesce (optChain responseOrError "statusText")
    (optChain (optChain responseOrError "response") "statusText")

/-- `data = responseOrError?.data ?? responseOrError?.response?.data`. -/
def dataOf (responseOrError : JSValue) : JSValue :=
  coalesce (optChain responseOrError "data")
    (optChain (optChain responseOrError "response") "data")

/-- The `success` expression
`httpCode === statusCodes.ok && (data.code === statusCodes.ok || data.code === statusCodes.zero)`.
`&&` short-circuits, so `data.code` — a plain, throwing access — is only read
when `httpCode` is the number 200; `none` models the `TypeError` thrown when
`data` is nullish at that point.  This expression sits before the `try` block
of the source, so that `TypeError` is not caught by it. -/
def successCheck (httpCode data : JSValue) : Option Bool :=
  if jsStrictEq httpCode statusCodes.ok then
    match jsGet data "code" with
    | none => none
    | some c => some (jsStrictEq c statusCodes.ok || jsStrictEq c statusCodes.zero)
  else some false

/-- `error.code = data?.code ?? 'No error code'`. -/
def errorCodeOf (data : JSValue) : JSValue :=
  coalesce (optChain data "code") (.vStr "No error code")

/-- `error.msg = httpErrorCodeDescriptions[data?.code] ?? data?.msg ?? 'Unknown error'`. -/
def errorMsgOf (data : JSValue) : JSValue :=
  coalesce (descLookup (optChain data "code"))
    (coalesce (optChain data "msg") (.vStr "Unknown error"))

/-- The template literal `[${error.code}] ${trimAny(error.msg, ' .')}`. -/
def fameexErrorInfoOf (data : JSValue) : String :=
  "[" ++ jsToString (errorCodeOf data) ++ "] " ++ jsToString (trimAny (errorMsgOf data) " .")

/-- `errorMessage = httpCode ? httpCode statusMessage, info : String(responseOrError)`. -/
def errorMessageOf (responseOrError httpCode httpMessage data : JSValue) : String :=
  if truthy httpCode then
    jsToString httpCode ++ " " ++ jsToString httpMessage ++ ", " ++ fameexErrorInfoOf data
  else jsToString responseOrError

/-- `reqParameters = queryString || '{ No parameters }'`. -/
def reqParametersOf (queryString : String) : String :=
  if queryString == "" then "\x7b No parameters \x7d" else queryString

/-- `if (typeof data === 'object') data.fameexErrorInfo = fameexErrorInfo`:
`typeof` is `'object'` exactly for objects and `null`; the assignment succeeds
on an object, throws a `TypeError` (modelled as `none`) on `null`, and is
skipped for every other value. -/
def maybeAnnotate (data : JSValue) (info : String) : Option JSValue :=
  match data with
  | .vObj fs => some (.vObj (setField fs "fameexErrorInfo" (.vStr info)))
  | .vNull => none
  | v => some v

/-- Message of the `TypeError` thrown by reading `.code` of a nullish `data`. -/
def readCodeErr (data : JSValue) : String :=
  "TypeError: Cannot read properties of " ++ jsToString data ++ " (reading \x27code\x27)"

/-- Message of the `TypeError` thrown by assigning a property on `null`. -/
def setOnNullErr : String :=
  "TypeError: Cannot set properties of null (setting \x27fameexErrorInfo\x27)"

/-- A line emitted on the logger configured via `setConfig`: `log.log` or
`log.warn`. -/
inductive LogEvent where
  | info : String → LogEvent
  | warn : String → LogEvent
deriving DecidableEq

/-- How `handleResponse` settles the pending promise: `resolve` was called,
`reject` was called, or an exception escaped `handleResponse` uncaught (the
string is its message) and the promise is settled by neither. -/
inductive Settle where
  | resolved : JSValue → Settle
  | rejected : String → Settle
  | crashed : String → Settle
deriving DecidableEq

/-- Everything observable about one `handleResponse` call: how the promise was
settled, the `console.log` output, and the logger lines, in order. -/
structure ClassifyOutput where
  settle : Settle
  console : List JSValue
  logs : List LogEvent
deriving DecidableEq

/-- The response classifier `handleResponse(responseOrError, resolve, reject,
queryString, url)`, translated statement by statement.  The `success`
expression is evaluated before `console.log` and before the `try` block; if it
throws, nothing further runs and the promise is never settled (`crashed`).
Inside the `try`, the only throwing operation is the annotation assignment on a
`null` body, which the `catch` turns into a warning plus rejection.  In the
success branch `resolve(data.data)` is a plain access, but `data` is known
non-nullish there (its `code` was just read), so it agrees with `optChain`. -/
def handleResponse (responseOrError : JSValue) (queryString url : String) : ClassifyOutput :=
  let httpCode := httpCodeOf responseOrError
  let httpMessage := httpMessageOf responseOrError
  let data := dataOf responseOrError
  match successCheck httpCode data with
  | none => { settle := .crashed (readCodeErr data), console := [], logs := [] }
  | some success =>
    let consoleOut := [JSValue.vObj (.cons "data" data .nil)]
    let reqParameters := reqParametersOf queryString
    if success then
      { settle := .resolved (optChain data "data"), console := consoleOut, logs := [] }
    else
      let fameexErrorInfo := fameexErrorInfoOf data
      let errorMessage := errorMessageOf responseOrError httpCode httpMessage data
      match maybeAnnotate data fameexErrorInfo with
      | none =>
        { settle := .rejected ("Unable to process data: " ++ jsonStringifyT data ++ ". " ++ setOnNullErr),
          console := consoleOut,
          logs := [.warn ("Error while processing response of request to " ++ url ++
            " with data " ++ reqParameters ++ ": " ++ setOnNullErr ++
            ". Data object I\x27ve got: " ++ jsonStringifyT data ++ ".")] }
      | some newData =>
        if jsStrictEq httpCode statusCodes.ok then
          { settle := .resolved newData,
            console := consoleOut,
            logs := [.info ("FameEX processed a request to " ++ url ++ " with data " ++
              reqParameters ++ ", but with error: " ++ jsToString (errorMsgOf data) ++
              ". Resolving…")] }
        else
          { settle := .rejected errorMessage,
            console := consoleOut,
            logs := [.warn ("Request to " ++ url ++ " with data " ++ reqParameters ++
              " failed. details: " ++ errorMessage ++ ". Rejecting…")] }

/-! ### HMAC-SHA256, the algorithm behind `crypto.createHmac('sha256', secret)`

The signer calls Node's `crypto` module; the algorithm (FIPS 180-4 / FIPS 198-1)
is embedded here over `Nat`, reducing modulo `2^32` wherever 32-bit words wrap. -/

/-- Reduce a word modulo `2^32`. -/
def w32 (n : Nat) : Nat := n % 4294967296

/-- Bitwise complement within 32 bits (arguments are reduced first). -/
def not32 (x : Nat) : Nat := 4294967295 - w32 x

/-- Right rotation of a 32-bit word. -/
def rotr32 (x n : Nat) : Nat := (w32 x >>> n) ||| w32 (w32 x <<< (32 - n))

def ch32 (x y z : Nat) : Nat := (x &&& y) ^^^ (not32 x &&& z)

def maj32 (x y z : Nat) : Nat := (x &&& y) ^^^ (x &&& z) ^^^ (y &&& z)

def bsig0 (x : Nat) : Nat := rotr32 x 2 ^^^ rotr32 x 13 ^^^ rotr32 x 22

def bsig1 (x : Nat) : Nat := rotr32 x 6 ^^^ rotr32 x 11 ^^^ rotr32 x 25

def ssig0 (x : Nat) : Nat := rotr32 x 7 ^^^ rotr32 x 18 ^^^ (x >>> 3)

def ssig1 (x : Nat) : Nat := rotr32 x 17 ^^^ rotr32 x 19 ^^^ (x >>> 10)

/-- The 64 SHA-256 round constants (FIPS 180-4 §4.2.2, here in decimal). -/
def sha256K : List Nat := [
  1116352408, 1899447441, 3049323471, 3921009573, 961987163, 1508970993,
  2453635748, 2870763221, 3624381080, 310598401, 607225278, 1426881987,
  1925078388, 2162078206, 2614888103, 3248222580, 3835390401, 4022224774,
  264347078, 604807628, 770255983, 1249150122, 1555081692, 1996064986,
  2554220882, 2821834349, 2952996808, 3210313671, 3336571891, 3584528711,
  113926993, 338241895, 666307205, 773529912, 1294757372, 1396182291,
  1695183700, 1986661051, 2177026350, 2456956037, 2730485921, 2820302411,
  3259730800, 3345764771, 3516065817, 3600352804, 4094571909, 275423344,
  430227734, 506948616, 659060556, 883997877, 958139571, 1322822218,
  1537002063, 1747873779, 1955562222, 2024104815, 2227730452, 2361852424,
  2428436474, 2756734187, 3204031479, 3329325298]

/-- The eight-word SHA-256 working state. -/
structure Sha256State where
  a : Nat
  b : Nat
  c : Nat
  d : Nat
  e : Nat
  f : Nat
  g : Nat
  h : Nat

/-- The SHA-256 initial hash value (FIPS 180-4 §5.3.3, here in decimal). -/
def sha256Init : Sha256State :=
  ⟨1779033703, 3144134277, 1013904242, 2773480762,
   1359893119, 2600822924, 528734635, 1541459225⟩

/-- Next word of the message schedule, from the last 16 words computed. -/
def nextScheduleWord (w : List Nat) : Nat :=
  let l := w.length
  w32 (ssig1 (w.getD (l - 2) 0) + w.getD (l - 7) 0 + ssig0 (w.getD (l - 15) 0) + w.getD (l - 16) 0)

/-- Extend the 16 block words by `n` further schedule words. -/
def extendSchedule : Nat → List Nat → List Nat
  | 0, w => w
  | n + 1, w => extendSchedule n (w ++ [nextScheduleWord w])

/-- One SHA-256 round with round constant `kw.1` and schedule word `kw.2`. -/
def sha256Round (st : Sha256State) (kw : Nat × Nat) : Sha256State :=
  let t1 := w32 (st.h + bsig1 st.e + ch32 st.e st.f st.g + kw.1 + kw.2)
  let t2 := w32 (bsig0 st.a + maj32 st.a st.b st.c)
  { a := w32 (t1 + t2), b := st.a, c := st.b, d := st.c,
    e := w32 (st.d + t1), f := st.e, g := st.f, h := st.g }

/-- Compress one 16-word block into the state. -/
def sha256Compress (st : Sha256State) (block : List Nat) : Sha256State :=
  let ws := extendSchedule 48 block
  let r := (sha256K.zip ws).foldl sha256Round st
  { a := w32 (st.a + r.a), b := w32 (st.b + r.b), c := w32 (st.c + r.c), d := w32 (st.d + r.d),
    e := w32 (st.e + r.e), f := w32 (st.f + r.f), g := w32 (st.g + r.g), h := w32 (st.h + r.h) }

/-- Big-endian 8-byte encoding of a length in bits. -/
def be64 (n : Nat) : List Nat :=
  [n >>> 56 % 256, n >>> 48 % 256, n >>> 40 % 256, n >>> 32 % 256,
   n >>> 24 % 256, n >>> 16 % 256, n >>> 8 % 256, n % 256]

/-- SHA-256 padding: `0x80`, zeros to 56 mod 64, then the bit length. -/
def padMessage (msg : List Nat) : List Nat :=
  msg ++ [0x80] ++ List.replicate ((119 - msg.length % 64) % 64) 0 ++ be64 (8 * msg.length)

/-- Big-endian 32-bit words from bytes (the input length is a multiple of 4). -/
def bytesToWords : List Nat → List Nat
  | b0 :: b1 :: b2 :: b3 :: rest =>
    ((b0 % 256) <<< 24 ||| (b1 % 256) <<< 16 ||| (b2 % 256) <<< 8 ||| (b3 % 256)) :: bytesToWords rest
  | _ => []

/-- Split a byte string into 64-byte blocks. -/
def toBlocks : List Nat → List (List Nat)
  | [] => []
  | b :: rest => (b :: rest).take 64 :: toBlocks (rest.drop 63)
termination_by l => l.length
decreasing_by simp; omega

/-- Big-endian bytes of a 32-bit word. -/
def wordBytes (x : Nat) : List Nat := [x >>> 24 % 256, x >>> 16 % 256, x >>> 8 % 256, x % 256]

/-- Serialize the final state to the 32 digest bytes. -/
def sha256Digest (st : Sha256State) : List Nat :=
  wordBytes st.a ++ wordBytes st.b ++ wordBytes st.c ++ wordBytes st.d ++
  wordBytes st.e ++ wordBytes st.f ++ wordBytes st.g ++ wordBytes st.h

/-- SHA-256 of a byte string. -/
def sha256Bytes (msg : List Nat) : List Nat :=
  sha256Digest (((toBlocks (padMessage msg)).map bytesToWords).foldl sha256Compress sha256Init)

/-- HMAC-SHA256 (FIPS 198-1): keys longer than the 64-byte block are hashed
first, then zero-padded; inner pad `0x36`, outer pad `0x5c`. -/
def hmacSha256 (key msg : List Nat) : List Nat :=
  let k0 := if 64 < key.length then sha256Bytes key else key
  let kpad := k0 ++ List.replicate (64 - k0.length) 0
  sha256Bytes ((kpad.map (fun b => b ^^^ 0x5c)) ++
    sha256Bytes ((kpad.map (fun b => b ^^^ 0x36)) ++ msg))

/-- UTF-8 bytes of a string (`crypto` treats string inputs as UTF-8). -/
def strBytes (s : String) : List Nat := s.toUTF8.toList.map (fun b => b.toNat)

/-- The sixteen lowercase hexadecimal digits. -/
def hexDigits : List Char := "0123456789abcdef".data

/-- Hex digit of a nibble. -/
def hexDigit (n : Nat) : Char := hexDigits.getD n 'f'

/-- Two lowercase hex digits of a byte (digest bytes are below 256). -/
def byteHex (b : Nat) : List Char := [hexDigit (b / 16), hexDigit (b % 16)]

def bytesToHexList : List Nat → List Char
  | [] => []
  | b :: rest => byteHex b ++ bytesToHexList rest

/-- `.digest('hex')`: the lowercase hexadecimal rendering of the digest. -/
def bytesToHex (bs : List Nat) : String := String.mk (bytesToHexList bs)

/-- `getSignature(secret, timestamp, method, requestPath, payload)`:
`crypto.createHmac('sha256', secret).update(timestamp + method + requestPath + payload).digest('hex')`.
`timestamp` is the JavaScript number `Date.now()`, a millisecond count, which
`+` with a string renders in decimal before concatenating. -/
def getSignature (secret : String) (timestamp : Nat) (method requestPath payload : String) : String :=
  bytesToHex (hmacSha256 (strBytes secret)
    (strBytes (toString timestamp ++ method ++ requestPath ++ payload)))

/-! ### The private-request builder and the module configuration -/

/-- `type.toUpperCase()`: uppercase each character (the request types used are
the ASCII words `get`, `post`, `delete`). -/
def jsToUpperCase (s : String) : String := String.mk (s.data.map Char.toUpper)

/-- The `httpOptions` object handed to `axios` by `protectedRequest`: for a
POST the serialized body string is sent as `data`, otherwise the parameter
object is sent as `params`.  Header values are the strings put on the wire
(the numeric `Timestamp` header is rendered in decimal). -/
structure FameexHttpOptions where
  url : String
  method : String
  timeout : Nat
  headers : List (String × String)
  data : Option String
  params : Option JSValue
deriving DecidableEq

/-- One `protectedRequest` invocation, up to the `axios` call: the options it
dispatches, the payload string it passed to the signer, and the signature. -/
structure ProtectedCall where
  httpOptions : FameexHttpOptions
  signPayload : String
  sign : String
deriving DecidableEq

/-- `protectedRequest(type, path, data)`: serializes the body once
(`stringifiedData = JSON.stringify(data)`), signs
`timestamp + type.toUpperCase() + path + signPayload` where `signPayload` is
the serialized body for POST and `''` otherwise, and attaches the fixed
headers.  The module state reads (`WEB_BASE`, `config.apiKey`,
`config.secret_key`) and `Date.now()` enter as parameters. -/
def protectedRequest (webBase apiKey secretKey : String) (timestamp : Nat)
    (type path : String) (data : JSValue) : ProtectedCall :=
  let url := webBase ++ path
  let stringifiedData := jsonStringifyT data
  let signPayload := if type == "post" then stringifiedData else ""
  let method := jsToUpperCase type
  let sign := getSignature secretKey timestamp method path signPayload
  { httpOptions :=
      { url := url
        method := type
        timeout := 10000
        headers := [("Content-Type", "application/json"), ("AccessKey", apiKey),
          ("SecretKey", secretKey), ("Timestamp", toString timestamp),
          ("SignatureVersion", "v1.0"), ("SignatureMethod", "HmacSHA256"),
          ("Signature", sign)]
        data := if type == "post" then some stringifiedData else none
        params := if type == "post" then none else some data }
    signPayload := signPayload
    sign := sign }

/-- The `config` object of the module: credentials stored by `setConfig`. -/
structure FameexConfig where
  apiKey : JSValue
  secret_key : JSValue
  tradePwd : JSValue
deriving DecidableEq

/-- The three mutable module-level bindings of the source file: `WEB_BASE`,
`config`, and `log`. -/
structure ModuleState where
  WEB_BASE : JSValue
  config : FameexConfig
  log : JSValue
deriving DecidableEq

/-- The bindings as initialized at module load. -/
def initialState : ModuleState :=
  { WEB_BASE := .vStr "https://api.fameex.com"
    config := { apiKey := .vStr "", secret_key := .vStr "", tradePwd := .vStr "" }
    log := .vObj .nil }

/-- `setConfig(apiServer, apiKey, secretKey, tradePwd, logger, publicOnly)`:
`WEB_BASE` is overwritten only when `apiServer` is truthy, `log` only when
`logger` is truthy, and the whole `config` object is replaced (from `apiKey`,
`secretKey`, `tradePwd`) unless `publicOnly` is truthy. -/
def setConfig (st : ModuleState) (apiServer apiKey secretKey tradePwd logger publicOnly : JSValue) :
    ModuleState :=
  let st := if truthy apiServer then { st with WEB_BASE := apiServer } else st
  let st := if truthy logger then { st with log := logger } else st
  if truthy publicOnly then st
  else { st with config := { apiKey := apiKey, secret_key := secretKey, tradePwd := tradePwd } }

/-! ### Helper lemmas -/

theorem setField_lookup_self : ∀ (fs : JSFields) (k : String) (v : JSValue),
    lookupField (setField fs k v) k = v
  | .nil, k, v => by simp [setField, lookupField]
  | .cons k2 v2 rest, k, v => by
    by_cases h : k2 = k
    · simp [setField, lookupField, h]
    · simp [setField, lookupField, h, setField_lookup_self rest k v]

theorem setField_lookup_other : ∀ (fs : JSFields) (k k2 : String) (v : JSValue), k2 ≠ k →
    lookupField (setField fs k v) k2 = lookupField fs k2
  | .nil, k, k2, v, h => by simp [setField, lookupField, Ne.symm h]
  | .cons k3 v3 rest, k, k2, v, h => by
    by_cases h3 : k3 = k
    · subst h3
      simp [setField, lookupField, Ne.symm h]
    · by_cases h2 : k3 = k2
      · simp [setField, lookupField, h2, h3, h]
      · simp [setField, lookupField, h2, h3, setField_lookup_other rest k k2 v h]

theorem jsStrictEq_num_iff (c : JSValue) (n : Int) :
    jsStrictEq c (.vNum n) = true ↔ c = .vNum n := by
  cases c <;> simp [jsStrictEq]

theorem jsStrictEq_str_iff (c : JSValue) (s : String) :
    jsStrictEq c (.vStr s) = true ↔ c = .vStr s := by
  cases c <;> simp [jsStrictEq]

theorem hexDigit_mem (n : Nat) : hexDigit n ∈ hexDigits := by
  unfold hexDigit
  by_cases h : n < hexDigits.length
  · rw [List.getD_eq_getElem?_getD, List.getElem?_eq_getElem h]
    exact List.getElem_mem h
  · rw [List.getD_eq_getElem?_getD, List.getElem?_eq_none (by omega)]
    decide

theorem bytesToHexList_mem (bs : List Nat) (c : Char) (h : c ∈ bytesToHexList bs) :
    c ∈ hexDigits := by
  induction bs with
  | nil => simp [bytesToHexList] at h
  | cons b rest ih =>
    simp only [bytesToHexList, byteHex, List.cons_append, List.nil_append, List.mem_cons] at h
    rcases h with h | h | h
    · exact h ▸ hexDigit_mem _
    · exact h ▸ hexDigit_mem _
    · exact ih h

theorem bytesToHexList_length (bs : List Nat) : (bytesToHexList bs).length = 2 * bs.length := by
  induction bs with
  | nil => simp [bytesToHexList]
  | cons b rest ih => simp [bytesToHexList, byteHex, ih]; omega

theorem sha256Digest_length (st : Sha256State) : (sha256Digest st).length = 32 := by
  simp [sha256Digest, wordBytes]

theorem sha256Bytes_length (msg : List Nat) : (sha256Bytes msg).length = 32 :=
  sha256Digest_length _

theorem hmacSha256_length (key msg : List Nat) : (hmacSha256 key msg).length = 32 :=
  sha256Bytes_length _

theorem bytesToHex_length (bs : List Nat) : (bytesToHex bs).length = 2 * bs.length := by
  simp [bytesToHex, String.length, bytesToHexList_length]

/-- Boolean membership of a character in a list. -/
def charInList : List Char → Char → Bool
  | [], _ => false
  | a :: rest, c => a == c || charInList rest c

theorem charInList_of_mem : ∀ (l : List Char) (c : Char), c ∈ l → charInList l c = true
  | [], c, h => by simp at h
  | a :: rest, c, h => by
    rcases List.mem_cons.mp h with h | h
    · simp [charInList, h]
    · simp [charInList, charInList_of_mem rest c h]

/-- Does `sub` occur at the very start of `l`? -/
def hasInitSegment : List Char → List Char → Bool
  | _, [] => true
  | [], _ :: _ => false
  | a :: as, b :: bs => a == b && hasInitSegment as bs

/-- Does `sub` occur anywhere in `l`? -/
def subOccurs : List Char → List Char → Bool
  | [], sub => sub.isEmpty
  | a :: as, sub => hasInitSegment (a :: as) sub || subOccurs as sub

/-- Does the string `sub` occur inside `s`? -/
def strContainsSub (s sub : String) : Bool := subOccurs s.data sub.data

/-- `typeof v === 'object'`: true exactly for objects and `null`. -/
def isObjectType : JSValue → Bool
  | .vObj _ => true
  | .vNull => true
  | _ => false

/-! ### Concrete outcomes used by the spec's examples -/

/-- A 200 response whose body carries success code 200 and `data {balance: 5}`. -/
def sampleSuccessOutcome : JSValue :=
  jsObj [("status", .vNum 200), ("statusText", .vStr "OK"),
    ("data", jsObj [("code", .vNum 200), ("data", jsObj [("balance", .vNum 5)])])]

/-- A 200 response whose body carries application error code 112015. -/
def sampleSoftErrorOutcome : JSValue :=
  jsObj [("status", .vNum 200), ("statusText", .vStr "OK"),
    ("data", jsObj [("code", .vNum 112015), ("msg", .vStr "bad sig")])]

/-- The fields of `sampleSoftErrorOutcome`'s body. -/
def sampleSoftErrorBody : JSFields := objOf [("code", .vNum 112015), ("msg", .vStr "bad sig")]

/-- An axios error for an HTTP 401 whose body carries error code 112011. -/
def sample401Outcome : JSValue :=
  jsObj [("response", jsObj [("status", .vNum 401), ("statusText", .vStr "Unauthorized"),
    ("data", jsObj [("code", .vNum 112011), ("msg", .vStr "ip restricted")])])]

/-- The rejection string produced for `sample401Outcome`. -/
def sample401Rejection : String :=
  "401 Unauthorized, [112011] API request IP access is restricted (the bound IP is inconsistent with the request IP)"

/-- A pure transport failure: an error object with no response, status, or data. -/
def sampleTransportFailure : JSValue :=
  jsObj [("message", .vStr "timeout of 10000ms exceeded")]

/-- A 200 response whose JSON body is literally `null`. -/
def sampleNullBody200 : JSValue :=
  jsObj [("status", .vNum 200), ("statusText", .vStr "OK"), ("data", .vNull)]

/-- An axios error for an HTTP 500 whose response body is literally `null`. -/
def sampleNullBody500 : JSValue :=
  jsObj [("response", jsObj [("status", .vNum 500), ("statusText", .vStr "Internal Server Error"),
    ("data", .vNull)])]

/-- A request URL used in the examples. -/
def sampleUrl : String := "https://api.fameex.com/v1/api/account/wallet"

/-! ### Claims -/

/-- C1: the classifier resolves with `body.data` exactly when the HTTP status
is 200 and `body.code` is the number 200 or the string `"0"`; in that success
case no logger line is emitted (the logger line list is empty; the
unconditional `console.log({ data })` debug dump is recorded separately in the
`console` field).  At outcome `{httpStatus: 200, body: {code: 200, data:
{balance: 5}}}` it resolves with `{balance: 5}`, and a 200 HTTP status
combined with an application error code is not classified as success. -/
theorem c1_success_classification :
    (∀ (o : JSValue) (q u : String),
      successCheck (httpCodeOf o) (dataOf o) = some true →
      (handleResponse o q u).settle = .resolved (optChain (dataOf o) "data") ∧
        (handleResponse o q u).logs = []) ∧
    (∀ (httpCode d c : JSValue), jsGet d "code" = some c →
      (successCheck httpCode d = some true ↔
        (httpCode = .vNum 200 ∧ (c = .vNum 200 ∨ c = .vStr "0")))) ∧
    (handleResponse sampleSuccessOutcome "" sampleUrl).settle =
      .resolved (jsObj [("balance", .vNum 5)]) ∧
    successCheck (.vNum 200) (dataOf sampleSoftErrorOutcome) = some false := by
  refine ⟨?_, ?_, rfl, rfl⟩
  · intro o q u h
    simp [handleResponse, h]
  · intro httpCode d c hget
    by_cases hh : jsStrictEq httpCode statusCodes.ok = true
    · have h200 : httpCode = .vNum 200 := (jsStrictEq_num_iff httpCode 200).mp hh
      simp [successCheck, hh, hget, h200, jsStrictEq_num_iff, jsStrictEq_str_iff, statusCodes]
    · have h200 : httpCode ≠ .vNum 200 := fun he =>
        hh ((jsStrictEq_num_iff httpCode 200).mpr he)
      simp [successCheck, hh, h200]

/-- C1 witness: at the spec's success outcome the hypothesis holds and the
classifier resolves with `body.data` without logging. -/
theorem c1_witness :
    successCheck (httpCodeOf sampleSuccessOutcome) (dataOf sampleSuccessOutcome) = some true ∧
    ((handleResponse sampleSuccessOutcome "" sampleUrl).settle =
      .resolved (optChain (dataOf sampleSuccessOutcome) "data") ∧
      (handleResponse sampleSuccessOutcome "" sampleUrl).logs = []) :=
  ⟨rfl, c1_success_classification.1 sampleSuccessOutcome "" sampleUrl rfl⟩

/-- C2: the signature of every private request is the lowercase hexadecimal
HMAC-SHA256 digest, keyed by the secret, of the decimal timestamp, the
uppercased method, the path, and the payload (the serialized body for POST,
empty otherwise), concatenated in that order with no separators: 64
characters, all lowercase hex digits. -/
theorem c2_signature_algorithm :
    ∀ (webBase apiKey secretKey : String) (ts : Nat) (type path : String) (body : JSValue),
      (protectedRequest webBase apiKey secretKey ts type path body).sign =
        bytesToHex (hmacSha256 (strBytes secretKey)
          (strBytes (Nat.repr ts ++ jsToUpperCase type ++ path ++
            (if type == "post" then jsonStringifyT body else "")))) ∧
      ((protectedRequest webBase apiKey secretKey ts type path body).sign).length = 64 ∧
      ((protectedRequest webBase apiKey secretKey ts type path body).sign).data.all
        (fun c => charInList hexDigits c) = true := by
  intro webBase apiKey secretKey ts type path body
  have hsign : (protectedRequest webBase apiKey secretKey ts type path body).sign =
      bytesToHex (hmacSha256 (strBytes secretKey)
        (strBytes (Nat.repr ts ++ jsToUpperCase type ++ path ++
          (if type == "post" then jsonStringifyT body else "")))) := rfl
  refine ⟨hsign, ?_, ?_⟩
  · rw [hsign, bytesToHex_length, hmacSha256_length]
  · rw [hsign]
    refine List.all_eq_true.mpr ?_
    intro c hc
    exact charInList_of_mem _ _ (bytesToHexList_mem _ _ hc)

/-- C3: when the HTTP status is 200 but `body.code` is neither 200 nor `"0"`,
the classifier resolves (does not reject) with the original body, annotated —
when the body is an object — with the injected `fameexErrorInfo` field
`[<code>] <trimmed message>`; for body `{code: 112015, msg: "bad sig"}` the
injected field is `[112015] Signature error`. -/
theorem c3_soft_error_resolution :
    (∀ (o : JSValue) (q u : String) (fs : JSFields),
      httpCodeOf o = .vNum 200 →
      dataOf o = .vObj fs →
      successCheck (httpCodeOf o) (dataOf o) = some false →
      (handleResponse o q u).settle =
        .resolved (.vObj (setField fs "fameexErrorInfo"
          (.vStr (fameexErrorInfoOf (.vObj fs)))))) ∧
    (handleResponse sampleSoftErrorOutcome "" sampleUrl).settle =
      .resolved (jsObj [("code", .vNum 112015), ("msg", .vStr "bad sig"),
        ("fameexErrorInfo", .vStr "[112015] Signature error")]) ∧
    fameexErrorInfoOf (.vObj sampleSoftErrorBody) = "[112015] Signature error" := by
  refine ⟨?_, rfl, rfl⟩
  intro o q u fs h200 hobj hsucc
  rw [h200, hobj] at hsucc
  simp [handleResponse, hsucc, hobj, maybeAnnotate, h200, jsStrictEq, statusCodes]

/-- C3 witness: at the spec's soft-error outcome the hypotheses hold and the
classifier resolves with the annotated body. -/
theorem c3_witness :
    httpCodeOf sampleSoftErrorOutcome = .vNum 200 ∧
    dataOf sampleSoftErrorOutcome = .vObj sampleSoftErrorBody ∧
    successCheck (httpCodeOf sampleSoftErrorOutcome) (dataOf sampleSoftErrorOutcome) =
      some false ∧
    (handleResponse sampleSoftErrorOutcome "" sampleUrl).settle =
      .resolved (.vObj (setField sampleSoftErrorBody "fameexErrorInfo"
        (.vStr (fameexErrorInfoOf (.vObj sampleSoftErrorBody))))) :=
  ⟨rfl, rfl, rfl,
    c3_soft_error_resolution.1 sampleSoftErrorOutcome "" sampleUrl sampleSoftErrorBody
      rfl rfl rfl⟩

/-- C4 (the code violates the claimed invariant): at the outcome
`{httpStatus: 200, statusText: "OK", body: null}` the `success` expression
reads `.code` of an undefined `data` before the `try` block, the `TypeError`
escapes `handleResponse`, and neither `resolve` nor `reject` is ever invoked
(and nothing is printed or logged): the pending promise is left unsettled. -/
theorem c4_unsettled_crash_on_null_body :
    handleResponse sampleNullBody200 "" sampleUrl =
      { settle := .crashed (readCodeErr .vUndefined), console := [], logs := [] } := rfl

/-- C5 counterexample: at an HTTP 500 whose body is literally `null`, the
classifier rejects not with the claimed diagnostic combining the status and
status text, but with the `catch` message: the rejection string contains
neither `500` nor `Internal Server Error`. -/
theorem c5_counterexample_null_body :
    (handleResponse sampleNullBody500 "" sampleUrl).settle =
      .rejected ("Unable to process data: null. " ++ setOnNullErr) ∧
    strContainsSub ("Unable to process data: null. " ++ setOnNullErr) "500" = false ∧
    strContainsSub ("Unable to process data: null. " ++ setOnNullErr)
      "Internal Server Error" = false :=
  ⟨rfl, by decide, by decide⟩

/-- C5 (amended): for every outcome with a truthy non-200 HTTP status whose
body is not `null`, the classifier rejects with the diagnostic string
combining the status, the status text, the normalized code, and the trimmed
message resolved via the fixed table (falling back to `body.msg`, then a
generic message); for status 401 with body `{code: 112011, msg: "ip
restricted"}` the rejection contains `401` and `API request IP access is
restricted`. -/
theorem c5_http_error_rejection :
    (∀ (o : JSValue) (q u : String) (n : Int),
      httpCodeOf o = .vNum n → n ≠ 200 → n ≠ 0 → dataOf o ≠ .vNull →
      (handleResponse o q u).settle =
        .rejected (toString n ++ " " ++ jsToString (httpMessageOf o) ++ ", " ++
          fameexErrorInfoOf (dataOf o))) ∧
    (handleResponse sample401Outcome "" sampleUrl).settle = .rejected sample401Rejection ∧
    strContainsSub sample401Rejection "401" = true ∧
    strContainsSub sample401Rejection "API request IP access is restricted" = true := by
  refine ⟨?_, rfl, by decide, by decide⟩
  intro o q u n h hn hn0 hnil
  have hs : successCheck (.vNum n) (dataOf o) = some false := by
    simp [successCheck, statusCodes, jsStrictEq, hn]
  have htr : truthy (JSValue.vNum n) = true := by simp [truthy, hn0]
  cases hd : dataOf o
  case vNull => exact absurd hd hnil
  all_goals rw [hd] at hs
  all_goals simp [handleResponse, h, hd, hs, maybeAnnotate, errorMessageOf, htr,
    jsStrictEq, statusCodes, hn, jsToString]

/-- C5 witness: at the spec's 401 outcome the hypotheses hold and the
classifier rejects with the composed diagnostic. -/
theorem c5_witness :
    httpCodeOf sample401Outcome = .vNum 401 ∧
    dataOf sample401Outcome ≠ .vNull ∧
    (handleResponse sample401Outcome "" sampleUrl).settle =
      .rejected (toString (401 : Int) ++ " " ++ jsToString (httpMessageOf sample401Outcome) ++
        ", " ++ fameexErrorInfoOf (dataOf sample401Outcome)) :=
  ⟨rfl, by decide,
    c5_http_error_rejection.1 sample401Outcome "" sampleUrl 401 rfl (by decide) (by decide)
      (by decide)⟩

/-- C6: for a pure transport failure — an outcome with no `response`, no
`status`, and no `data` — the classifier rejects with the string rendering of
the raw failure value and does not crash: with no HTTP status the `success`
conjunction short-circuits to `false` for every body, nullish included, so
`body.code` is never read. -/
theorem c6_transport_failure_rejection :
    (∀ (o : JSValue) (q u : String),
      optChain o "status" = .vUndefined →
      optChain o "response" = .vUndefined →
      optChain o "data" = .vUndefined →
      (handleResponse o q u).settle = .rejected (jsToString o)) ∧
    (∀ d : JSValue, successCheck .vUndefined d = some false) := by
  constructor
  · intro o q u h1 h2 h3
    have hc : httpCodeOf o = .vUndefined := by
      unfold httpCodeOf
      rw [h1, h2]
      rfl
    have hd : dataOf o = .vUndefined := by
      unfold dataOf
      rw [h3, h2]
      rfl
    simp [handleResponse, hc, hd, successCheck, jsStrictEq, statusCodes, maybeAnnotate,
      errorMessageOf, truthy]
  · intro d
    simp [successCheck, jsStrictEq, statusCodes]

/-- C6 witness: a timeout error object with no response is rejected with its
string rendering (`[object Object]`) and the call does not crash. -/
theorem c6_witness :
    optChain sampleTransportFailure "status" = .vUndefined ∧
    optChain sampleTransportFailure "response" = .vUndefined ∧
    optChain sampleTransportFailure "data" = .vUndefined ∧
    (handleResponse sampleTransportFailure "" sampleUrl).settle =
      .rejected (jsToString sampleTransportFailure) :=
  ⟨rfl, rfl, rfl,
    c6_transport_failure_rejection.1 sampleTransportFailure "" sampleUrl rfl rfl rfl⟩

/-- C7 counterexample: at the outcome `{httpStatus: 200, body: null}` the
classifier's own processing throws (reading `.code` of the undefined body),
but the exception is not caught: no warning is logged and no rejection
happens — the call crashes, contradicting the claim for this outcome. -/
theorem c7_counterexample_uncaught_throw :
    (handleResponse sampleNullBody200 "" sampleUrl).settle =
      .crashed (readCodeErr .vUndefined) ∧
    (handleResponse sampleNullBody200 "" sampleUrl).logs = [] :=
  ⟨rfl, rfl⟩

/-- C7 (amended): for every outcome whose processing inside the `try` block
(the not-success branch) throws — which happens exactly when the body is
`null` and the HTTP status is not 200 — the exception is caught, a warning
log including the raw body serialized as text is emitted, and the result is a
rejection whose text includes both the JSON-serialized raw body and the
caught error. -/
theorem c7_try_throw_caught :
    ∀ (o : JSValue) (q u : String),
      dataOf o = .vNull → httpCodeOf o ≠ .vNum 200 →
      (handleResponse o q u).settle =
        .rejected ("Unable to process data: " ++ jsonStringifyT (dataOf o) ++ ". " ++
          setOnNullErr) ∧
      (handleResponse o q u).logs =
        [.warn ("Error while processing response of request to " ++ u ++ " with data " ++
          reqParametersOf q ++ ": " ++ setOnNullErr ++ ". Data object I\x27ve got: " ++
          jsonStringifyT (dataOf o) ++ ".")] := by
  intro o q u hd h200
  have hb : jsStrictEq (httpCodeOf o) statusCodes.ok = false := by
    cases hbv : jsStrictEq (httpCodeOf o) statusCodes.ok
    · rfl
    · exact absurd ((jsStrictEq_num_iff (httpCodeOf o) 200).mp hbv) h200
  have hs : successCheck (httpCodeOf o) (dataOf o) = some false := by
    simp [successCheck, hb]
  rw [hd] at hs
  simp [handleResponse, hs, hd, maybeAnnotate]

/-- C7 witness: at an HTTP 500 with a `null` body the hypotheses hold and the
classifier logs a warning and rejects with the serialized body and the error. -/
theorem c7_witness :
    dataOf sampleNullBody500 = .vNull ∧
    httpCodeOf sampleNullBody500 ≠ .vNum 200 ∧
    ((handleResponse sampleNullBody500 "" sampleUrl).settle =
      .rejected ("Unable to process data: " ++ jsonStringifyT (dataOf sampleNullBody500) ++
        ". " ++ setOnNullErr) ∧
    (handleResponse sampleNullBody500 "" sampleUrl).logs =
      [.warn ("Error while processing response of request to " ++ sampleUrl ++
        " with data " ++ reqParametersOf "" ++ ": " ++ setOnNullErr ++
        ". Data object I\x27ve got: " ++ jsonStringifyT (dataOf sampleNullBody500) ++ ".")]) :=
  ⟨rfl, by decide, c7_try_throw_caught sampleNullBody500 "" sampleUrl rfl (by decide)⟩

/-- C8: for every POST-type private request, the JSON string passed to the
signer as payload is the very string transmitted as the HTTP request body:
`JSON.stringify` runs once, and that string is both signed (with the method
uppercased to `POST`) and sent. -/
theorem c8_sign_and_send_same_string :
    ∀ (webBase apiKey secretKey : String) (ts : Nat) (path : String) (body : JSValue),
      (protectedRequest webBase apiKey secretKey ts "post" path body).httpOptions.data =
        some ((protectedRequest webBase apiKey secretKey ts "post" path body).signPayload) ∧
      (protectedRequest webBase apiKey secretKey ts "post" path body).signPayload =
        jsonStringifyT body ∧
      (protectedRequest webBase apiKey secretKey ts "post" path body).sign =
        getSignature secretKey ts "POST" path (jsonStringifyT body) := by
  intro webBase apiKey secretKey ts path body
  exact ⟨rfl, rfl, rfl⟩

/-- C9: a public-only configuration call leaves the stored credentials
untouched; independently of the flag, the base URL changes exactly when a
truthy override is supplied and the logger exactly when a truthy logger is
supplied; the three bindings `WEB_BASE`, `config`, `log` are all the
process-wide state the call can touch, and each is fully characterized. -/
theorem c9_setConfig_frame :
    ∀ (st : ModuleState) (apiServer apiKey secretKey tradePwd logger publicOnly : JSValue),
      (truthy publicOnly = true →
        (setConfig st apiServer apiKey secretKey tradePwd logger publicOnly).config =
          st.config) ∧
      ((setConfig st apiServer apiKey secretKey tradePwd logger publicOnly).WEB_BASE =
        if truthy apiServer then apiServer else st.WEB_BASE) ∧
      ((setConfig st apiServer apiKey secretKey tradePwd logger publicOnly).log =
        if truthy logger then logger else st.log) ∧
      (truthy publicOnly = false →
        (setConfig st apiServer apiKey secretKey tradePwd logger publicOnly).config =
          { apiKey := apiKey, secret_key := secretKey, tradePwd := tradePwd }) := by
  intro st apiServer apiKey secretKey tradePwd logger publicOnly
  by_cases ha : truthy apiServer <;> by_cases hl : truthy logger <;>
    by_cases hp : truthy publicOnly <;>
    simp [setConfig, ha, hl, hp]

/-- C9 witness: a public-only call with a base URL override and a logger
changes only those two bindings and keeps the initial credentials. -/
theorem c9_witness :
    truthy (.vBool true) = true ∧
    (setConfig initialState (.vStr "https://test.example") (.vStr "key") (.vStr "secret")
      (.vStr "pwd") (jsObj [("name", .vStr "logger")]) (.vBool true)).config =
      initialState.config ∧
    (setConfig initialState (.vStr "https://test.example") (.vStr "key") (.vStr "secret")
      (.vStr "pwd") (jsObj [("name", .vStr "logger")]) (.vBool true)).WEB_BASE =
      .vStr "https://test.example" :=
  ⟨rfl,
    (c9_setConfig_frame initialState (.vStr "https://test.example") (.vStr "key")
      (.vStr "secret") (.vStr "pwd") (jsObj [("name", .vStr "logger")]) (.vBool true)).1 rfl,
    by
      rw [(c9_setConfig_frame initialState (.vStr "https://test.example") (.vStr "key")
        (.vStr "secret") (.vStr "pwd") (jsObj [("name", .vStr "logger")]) (.vBool true)).2.1]
      rfl⟩

/-- C10: in the soft-resolve branch (HTTP 200 with an application error code),
an object body is resolved with every field other than the single injected
`fameexErrorInfo` field unchanged, and that field set to the diagnostic; a
non-object body (e.g. a string) is resolved entirely unmodified. -/
theorem c10_soft_resolve_frame :
    (∀ (o : JSValue) (q u : String) (fs : JSFields) (k : String),
      httpCodeOf o = .vNum 200 →
      dataOf o = .vObj fs →
      successCheck (httpCodeOf o) (dataOf o) = some false →
      k ≠ "fameexErrorInfo" →
      (handleResponse o q u).settle =
        .resolved (.vObj (setField fs "fameexErrorInfo"
          (.vStr (fameexErrorInfoOf (.vObj fs))))) ∧
      lookupField (setField fs "fameexErrorInfo" (.vStr (fameexErrorInfoOf (.vObj fs)))) k =
        lookupField fs k ∧
      lookupField (setField fs "fameexErrorInfo" (.vStr (fameexErrorInfoOf (.vObj fs))))
        "fameexErrorInfo" = .vStr (fameexErrorInfoOf (.vObj fs))) ∧
    (∀ (o : JSValue) (q u : String),
      httpCodeOf o = .vNum 200 →
      successCheck (httpCodeOf o) (dataOf o) = some false →
      isObjectType (dataOf o) = false →
      (handleResponse o q u).settle = .resolved (dataOf o)) := by
  constructor
  · intro o q u fs k h200 hobj hsucc hk
    rw [h200, hobj] at hsucc
    refine ⟨?_, setField_lookup_other fs "fameexErrorInfo" k _ hk,
      setField_lookup_self fs "fameexErrorInfo" _⟩
    simp [handleResponse, hsucc, hobj, maybeAnnotate, h200, jsStrictEq, statusCodes]
  · intro o q u h200 hsucc hnotobj
    rw [h200] at hsucc
    cases hd : dataOf o
    case vObj fs => rw [hd] at hnotobj; simp [isObjectType] at hnotobj
    case vNull => rw [hd] at hsucc; simp [successCheck, jsStrictEq, statusCodes, jsGet] at hsucc
    case vUndefined => rw [hd] at hsucc; simp [successCheck, jsStrictEq, statusCodes, jsGet] at hsucc
    all_goals rw [hd] at hsucc
    all_goals simp [handleResponse, h200, hd, hsucc, maybeAnnotate, jsStrictEq, statusCodes]

/-- C10 witness: at the spec's soft-error outcome the `msg` field is preserved
and only `fameexErrorInfo` is injected; a string body passes through whole. -/
theorem c10_witness :
    ((handleResponse sampleSoftErrorOutcome "" sampleUrl).settle =
      .resolved (.vObj (setField sampleSoftErrorBody "fameexErrorInfo"
        (.vStr (fameexErrorInfoOf (.vObj sampleSoftErrorBody))))) ∧
    lookupField (setField sampleSoftErrorBody "fameexErrorInfo"
      (.vStr (fameexErrorInfoOf (.vObj sampleSoftErrorBody)))) "msg" =
      lookupField sampleSoftErrorBody "msg" ∧
    lookupField (setField sampleSoftErrorBody "fameexErrorInfo"
      (.vStr (fameexErrorInfoOf (.vObj sampleSoftErrorBody)))) "fameexErrorInfo" =
      .vStr (fameexErrorInfoOf (.vObj sampleSoftErrorBody))) ∧
    (handleResponse (jsObj [("status", .vNum 200), ("statusText", .vStr "OK"),
        ("data", .vStr "maintenance")]) "" sampleUrl).settle =
      .resolved (.vStr "maintenance") :=
  ⟨c10_soft_resolve_frame.1 sampleSoftErrorOutcome "" sampleUrl sampleSoftErrorBody "msg"
      rfl rfl rfl (by decide),
    c10_soft_resolve_frame.2 (jsObj [("status", .vNum 200), ("statusText", .vStr "OK"),
      ("data", .vStr "maintenance")]) "" sampleUrl rfl rfl rfl⟩

end Fameex
